import Mathlib

/- A verification of the SignSense hand-pose classifier (app.py): the planar
   distance helper `dist`, landmark role resolution (`by_name` / `g`), the
   per-finger extension derivation and the ordered rule table of
   `classify_sign`.  Python dicts are modelled by `Landmark` records with
   optional fields, Python `None` by `Option.none`, float arithmetic by exact
   real arithmetic, and the one uncaught exception path (attribute access on a
   non-dict element) by `Except.error`. -/

namespace SignSense

/-- A landmark record: a Python dict possibly carrying `x`, `y`, `z`
coordinates and a `name`.  A dict is truthy iff it is nonempty, i.e. iff at
least one of its fields is present. -/
structure Landmark where
  x : Option ℝ
  y : Option ℝ
  z : Option ℝ
  name : Option String

/-- A Python value sitting in a role slot or passed to `dist`: either `None`
or a landmark dict. -/
abbrev Obj := Option Landmark

/-- An element of the landmarks list: a dict, or any non-dict value (int,
None, string, ...) on which the attribute access `lm.get` raises
AttributeError. -/
inductive Entry where
  | record (lm : Landmark)
  | nonRecord

/-- The argument passed to `classify_sign`: a Python list of elements, or any
non-list value.  For a non-list sequence such as a tuple the would-be elements
are kept so that its length is still meaningful; `classify_sign` never looks
at them because `isinstance(landmarks, list)` fails. -/
inductive PyInput where
  | list (xs : List Entry)
  | nonList (xs : List Entry)

/-- A Python exception escaping `classify_sign`. -/
inductive PyErr where
  | attributeError

/-- The five per-finger extension booleans (the `fingers` dict). -/
structure FingerState where
  thumb : Bool
  index : Bool
  middle : Bool
  ring : Bool
  pinky : Bool
  deriving DecidableEq

/-- The debug dictionary returned by `classify_sign`: the five finger
booleans (spread via `{**fingers, ...}`), and optionally an `error` code, a
`reason` code and a `pinch_distance` value.  The key sets of the different
return sites are disjoint, so a record of options models the dict exactly. -/
structure Debug where
  fingers : Option FingerState
  error : Option String
  reason : Option String
  pinch_distance : Option ℝ

/-- The `(label, confidence, debug)` triple returned by `classify_sign`. -/
abbrev Result := String × ℝ × Debug

/-- Truthiness of a landmark dict: nonempty. -/
def lmTruthy (lm : Landmark) : Bool :=
  lm.x.isSome || lm.y.isSome || lm.z.isSome || lm.name.isSome

/-- Truthiness of a Python value: `None` is falsy, a dict is truthy iff
nonempty. -/
def objTruthy : Obj → Bool
  | none => false
  | some lm => lmTruthy lm

/-- `float(a.get("x", 0.0))`. -/
def getX : Obj → ℝ
  | none => 0
  | some lm => lm.x.getD 0

/-- `float(a.get("y", 0.0))`. -/
def getY : Obj → ℝ
  | none => 0
  | some lm => lm.y.getD 0

/-- `dist(a, b)` of app.py: `0.0` when either argument is falsy, otherwise
`math.hypot(ax - bx, ay - by)` over the `x`,`y` fields (defaulting to 0.0). -/
noncomputable def dist (a b : Obj) : ℝ :=
  if objTruthy a = false ∨ objTruthy b = false then 0
  else Real.sqrt ((getX a - getX b) ^ 2 + (getY a - getY b) ^ 2)

/-- One iteration of the `by_name` loop: `if name: by_name[name] = lm`,
where `name = lm.get("name")` and an empty string is falsy. -/
def insertStep (m : String → Option Landmark) (lm : Landmark) :
    String → Option Landmark :=
  match lm.name with
  | some n => if n = "" then m else fun k => if k = n then some lm else m k
  | none => m

/-- The `by_name` dict after the whole loop, as a lookup function. -/
def buildByName (lms : List Landmark) : String → Option Landmark :=
  lms.foldl insertStep (fun _ => none)

/-- Python `dict.get(key, default)` given the looked-up value. -/
def pyGetD (v : Option Landmark) (d : Obj) : Obj :=
  match v with
  | some lm => some lm
  | none => d

/-- `g(name, idx)` of app.py:
`by_name.get(name, landmarks[idx] if idx < len(landmarks) else None)`. -/
def g (lms : List Landmark) (n : String) (i : Nat) : Obj :=
  pyGetD (buildByName lms n) (if i < lms.length then lms[i]? else none)

def wristOf (lms : List Landmark) : Obj := g lms ("wrist") 0
def thumbTipOf (lms : List Landmark) : Obj := g lms ("thumb_tip") 4
def thumbIpOf (lms : List Landmark) : Obj := g lms ("thumb_ip") 3
def indexTipOf (lms : List Landmark) : Obj := g lms ("index_finger_tip") 8
def indexPipOf (lms : List Landmark) : Obj := g lms ("index_finger_pip") 6
def middleTipOf (lms : List Landmark) : Obj := g lms ("middle_finger_tip") 12
def middlePipOf (lms : List Landmark) : Obj := g lms ("middle_finger_pip") 10
def ringTipOf (lms : List Landmark) : Obj := g lms ("ring_finger_tip") 16
def ringPipOf (lms : List Landmark) : Obj := g lms ("ring_finger_pip") 14
def pinkyTipOf (lms : List Landmark) : Obj := g lms ("pinky_finger_tip") 20
def pinkyPipOf (lms : List Landmark) : Obj := g lms ("pinky_finger_pip") 18

open Classical in
/-- `extended(tip, pip)` of app.py: `False` when tip or pip is falsy, else
`dist(tip, wrist) > dist(pip, wrist) + 0.04`. -/
noncomputable def extended (tip pip wrist : Obj) : Bool :=
  if objTruthy tip = false ∨ objTruthy pip = false then false
  else decide (dist tip wrist > dist pip wrist + 0.04)

noncomputable def thumbExt (lms : List Landmark) : Bool :=
  extended (thumbTipOf lms) (thumbIpOf lms) (wristOf lms)

noncomputable def indexExt (lms : List Landmark) : Bool :=
  extended (indexTipOf lms) (indexPipOf lms) (wristOf lms)

noncomputable def middleExt (lms : List Landmark) : Bool :=
  extended (middleTipOf lms) (middlePipOf lms) (wristOf lms)

noncomputable def ringExt (lms : List Landmark) : Bool :=
  extended (ringTipOf lms) (ringPipOf lms) (wristOf lms)

noncomputable def pinkyExt (lms : List Landmark) : Bool :=
  extended (pinkyTipOf lms) (pinkyPipOf lms) (wristOf lms)

/-- The `fingers` dict of the five extension booleans. -/
noncomputable def fingersOf (lms : List Landmark) : FingerState :=
  ⟨thumbExt lms, indexExt lms, middleExt lms, ringExt lms, pinkyExt lms⟩

/-- `count = sum(fingers.values())`. -/
def countExt (f : FingerState) : Nat :=
  (cond f.thumb 1 0) + (cond f.index 1 0) + (cond f.middle 1 0) +
    (cond f.ring 1 0) + (cond f.pinky 1 0)

/-- `pinch_d = dist(thumb_tip, index_tip)`. -/
noncomputable def pinchOf (lms : List Landmark) : ℝ :=
  dist (thumbTipOf lms) (indexTipOf lms)

/-- Rule 1: `pinky and not thumb and not index and not middle and not ring`. -/
def rule1 (f : FingerState) : Prop :=
  f.pinky = true ∧ f.thumb = false ∧ f.index = false ∧ f.middle = false ∧
    f.ring = false

/-- Rule 2: `middle and not thumb and not index and not ring and not pinky`. -/
def rule2 (f : FingerState) : Prop :=
  f.middle = true ∧ f.thumb = false ∧ f.index = false ∧ f.ring = false ∧
    f.pinky = false

/-- Rule 3: `ring and middle and pinky and not thumb and not index`. -/
def rule3 (f : FingerState) : Prop :=
  f.ring = true ∧ f.middle = true ∧ f.pinky = true ∧ f.thumb = false ∧
    f.index = false

/-- Rule 4 (pinch): `thumb_tip and index_tip and pinch_d < 0.06`. -/
def pinchRule (lms : List Landmark) : Prop :=
  objTruthy (thumbTipOf lms) = true ∧ objTruthy (indexTipOf lms) = true ∧
    pinchOf lms < 0.06

/-- Rule 5: `index and not middle and not ring and not pinky`. -/
def rule5 (f : FingerState) : Prop :=
  f.index = true ∧ f.middle = false ∧ f.ring = false ∧ f.pinky = false

/-- Rule 6: `index and middle and not ring and not pinky`. -/
def rule6 (f : FingerState) : Prop :=
  f.index = true ∧ f.middle = true ∧ f.ring = false ∧ f.pinky = false

/-- Rule 7: `index and pinky and not middle and not ring`. -/
def rule7 (f : FingerState) : Prop :=
  f.index = true ∧ f.pinky = true ∧ f.middle = false ∧ f.ring = false

/-- Rule 8: `thumb and count == 1`. -/
def rule8 (f : FingerState) : Prop :=
  f.thumb = true ∧ countExt f = 1

/-- Debug dict `{"error": e}` of the two early-exit returns. -/
def Debug.err (e : String) : Debug := ⟨none, some e, none, none⟩

/-- Debug dict `{**fingers, "reason": r}` of the reason-code returns. -/
def Debug.rsn (f : FingerState) (r : String) : Debug := ⟨some f, none, some r, none⟩

/-- Debug dict `{**fingers, "pinch_distance": d}` of the pinch return. -/
def Debug.withPinch (f : FingerState) (d : ℝ) : Debug := ⟨some f, none, none, some d⟩

open Classical in
/-- The rule table of `classify_sign` (ORDER MATTERS): sequential early
returns, first matching rule wins. -/
noncomputable def rulesOf (lms : List Landmark) : Result :=
  if rule1 (fingersOf lms) then ("Pinky", 0.88, Debug.rsn (fingersOf lms) ("TOILET"))
  else if rule2 (fingersOf lms) then ("Middle", 0.88, Debug.rsn (fingersOf lms) ("ANGRY"))
  else if rule3 (fingersOf lms) then
    ("Ring Pinky Middle", 0.90, Debug.rsn (fingersOf lms) ("AWESOME"))
  else if pinchRule lms then
    ("Pinch", 0.86, Debug.withPinch (fingersOf lms) (pinchOf lms))
  else if rule5 (fingersOf lms) then ("Point", 0.87, Debug.rsn (fingersOf lms) ("POINT"))
  else if rule6 (fingersOf lms) then ("Peace", 0.88, Debug.rsn (fingersOf lms) ("PEACE"))
  else if rule7 (fingersOf lms) then ("Rock", 0.88, Debug.rsn (fingersOf lms) ("ROCK"))
  else if rule8 (fingersOf lms) then
    ("Thumbs Up", 0.90, Debug.rsn (fingersOf lms) ("THUMBS_UP"))
  else if countExt (fingersOf lms) = 0 then
    ("Fist", 0.85, Debug.rsn (fingersOf lms) ("FIST"))
  else if countExt (fingersOf lms) = 5 then
    ("Open Hand", 0.92, Debug.rsn (fingersOf lms) ("OPEN_HAND"))
  else if countExt (fingersOf lms) = 4 then
    ("Four Fingers", 0.82, Debug.rsn (fingersOf lms) ("FOUR"))
  else if countExt (fingersOf lms) = 3 then
    ("Three Fingers", 0.80, Debug.rsn (fingersOf lms) ("THREE"))
  else ("Unknown", 0.30, Debug.rsn (fingersOf lms) ("UNKNOWN"))

/-- `classify_sign` after the length check and the `by_name` loop succeeded:
the `NO_WRIST` early exit followed by the rule table. -/
noncomputable def classify_core (lms : List Landmark) : Result :=
  if objTruthy (wristOf lms) = false then ("Unknown", 0.1, Debug.err ("NO_WRIST"))
  else rulesOf lms

/-- The `by_name` loop's traversal of the list: every element gets
`lm.get("name")` called on it, so a non-dict element raises AttributeError;
otherwise the list of dicts is returned. -/
def recordsOf : List Entry → Option (List Landmark)
  | [] => some []
  | Entry.record lm :: rest => (recordsOf rest).map (fun lms => lm :: lms)
  | Entry.nonRecord :: _ => none

/-- `classify_sign(landmarks)` of app.py.  A non-list input or a list shorter
than 21 returns the `NOT_ENOUGH_LANDMARKS` result; a list of length at least
21 containing a non-dict element raises AttributeError in the `by_name` loop;
otherwise the wrist check and the rule table run. -/
noncomputable def classify_sign : PyInput → Except PyErr Result
  | PyInput.nonList _ =>
      Except.ok ("Unknown", 0.2, Debug.err ("NOT_ENOUGH_LANDMARKS"))
  | PyInput.list xs =>
      if xs.length < 21 then
        Except.ok ("Unknown", 0.2, Debug.err ("NOT_ENOUGH_LANDMARKS"))
      else
        match recordsOf xs with
        | none => Except.error PyErr.attributeError
        | some lms => Except.ok (classify_core lms)

/-- Length of the underlying sequence of an input (a list or e.g. a tuple). -/
def seqLen : PyInput → Nat
  | PyInput.list xs => xs.length
  | PyInput.nonList xs => xs.length

/-- Inputs on which the `by_name` loop cannot raise: non-lists and short
lists never reach the loop, and lists of dicts survive it. -/
def wellFormedElems : PyInput → Prop
  | PyInput.nonList _ => True
  | PyInput.list xs => xs.length < 21 ∨ ∀ e ∈ xs, ∃ lm, e = Entry.record lm

/-- A landmark dict with only `x` and `y` keys, `y = 0`. -/
def mkPt (a : ℝ) : Landmark := ⟨some a, some 0, none, none⟩

/-- A named landmark dict with `x`, `y = 0` and `name` keys. -/
def mkNamed (n : String) (a : ℝ) : Landmark := ⟨some a, some 0, none, some n⟩

/-- The empty dict: present in the list but falsy. -/
def lmEmpty : Landmark := ⟨none, none, none, none⟩

/-- A 21-entry unnamed hand: wrist at the origin, finger tips and pips at the
given x offsets (MediaPipe fallback indices 0, 3, 4, 6, 8, 10, 12, 14, 16,
18, 20), fillers at the origin. -/
def handList (tIp tTip iPip iTip mPip mTip rPip rTip pPip pTip : ℝ) :
    List Landmark :=
  [mkPt 0, mkPt 0, mkPt 0, mkPt tIp, mkPt tTip,
   mkPt 0, mkPt iPip, mkPt 0, mkPt iTip, mkPt 0,
   mkPt mPip, mkPt 0, mkPt mTip, mkPt 0, mkPt rPip,
   mkPt 0, mkPt rTip, mkPt 0, mkPt pPip, mkPt 0, mkPt pTip]

/-- A hand whose finger pattern would match "Point" (index extended, middle,
ring and pinky retracted, thumb retracted) while thumb tip and index tip are
0.02 apart. -/
def lmsC3w : List Landmark := handList 0.5 0.52 0.2 0.5 0.3 0.3 0.3 0.3 0.3 0.3

/-- A hand with only the thumb extended and thumb tip 0.3 away from the index
tip, so the pinch rule cannot fire. -/
def lmsC4w : List Landmark := handList 0.1 0.5 0.2 0.2 0.3 0.3 0.3 0.3 0.3 0.3

/-- A hand with only the thumb extended but thumb tip 0.02 away from the
index tip, so the pinch rule fires first. -/
def lmsC4c : List Landmark := handList 0.1 0.5 0.52 0.52 0.3 0.3 0.3 0.3 0.3 0.3

/-- A hand with no finger extended and thumb tip exactly on the index tip:
the pinch rule fires with pinch distance 0. -/
def lmsFist : List Landmark := handList 0.3 0.3 0.3 0.3 0.3 0.3 0.3 0.3 0.3 0.3

/-- 21 landmarks whose first element is the empty dict and which carry no
`name` keys: the wrist role cannot be resolved. -/
def lmsNoWrist : List Landmark := lmEmpty :: List.replicate 20 (mkPt 0.3)

/-- A list with two entries named "wrist", at positions 1 and 2. -/
def lmsNames : List Landmark :=
  [mkPt 0.1, mkNamed ("wrist") 0.3, mkNamed ("wrist") 0.7]

/- ## Helper lemmas -/

lemma dist_falsy_left {a : Obj} (b : Obj) (ha : objTruthy a = false) :
    dist a b = 0 := by
  unfold dist; rw [if_pos (Or.inl ha)]

lemma dist_falsy_right (a : Obj) {b : Obj} (hb : objTruthy b = false) :
    dist a b = 0 := by
  unfold dist; rw [if_pos (Or.inr hb)]

lemma dist_mkPt (a b : ℝ) :
    dist (some (mkPt a)) (some (mkPt b)) = |a - b| := by
  unfold dist
  rw [if_neg (by simp [objTruthy, lmTruthy, mkPt])]
  show Real.sqrt ((a - b) ^ 2 + ((0 : ℝ) - 0) ^ 2) = |a - b|
  rw [show (a - b) ^ 2 + ((0 : ℝ) - 0) ^ 2 = (a - b) ^ 2 by ring,
    Real.sqrt_sq_eq_abs]

lemma extended_true_iff (tip pip wrist : Obj) :
    extended tip pip wrist = true ↔
      objTruthy tip = true ∧ objTruthy pip = true ∧
        dist tip wrist > dist pip wrist + 0.04 := by
  cases ht : objTruthy tip with
  | false => simp [extended, ht]
  | true =>
    cases hp : objTruthy pip with
    | false => simp [extended, ht, hp]
    | true => simp [extended, ht, hp]

lemma extended_eq_false {tip pip wrist : Obj}
    (h : ¬(objTruthy tip = true ∧ objTruthy pip = true ∧
      dist tip wrist > dist pip wrist + 0.04)) :
    extended tip pip wrist = false := by
  cases hE : extended tip pip wrist
  · rfl
  · exact absurd ((extended_true_iff tip pip wrist).mp hE) h

lemma wrist_truthy_of_extended {tip pip wrist : Obj}
    (h : extended tip pip wrist = true) : objTruthy wrist = true := by
  rcases (extended_true_iff tip pip wrist).mp h with ⟨-, -, hd⟩
  cases hw : objTruthy wrist
  · rw [dist_falsy_right tip hw, dist_falsy_right pip hw] at hd
    norm_num at hd
  · rfl

lemma extended_pt0_true {a b : ℝ} (ha : 0 ≤ a) (hb : 0 ≤ b)
    (h : b + 0.04 < a) :
    extended (some (mkPt a)) (some (mkPt b)) (some (mkPt 0)) = true := by
  rw [extended_true_iff]
  refine ⟨rfl, rfl, ?_⟩
  rw [dist_mkPt, dist_mkPt, sub_zero, sub_zero, abs_of_nonneg ha,
    abs_of_nonneg hb]
  exact h

lemma extended_pt0_false {a b : ℝ} (ha : 0 ≤ a) (hb : 0 ≤ b)
    (h : a ≤ b + 0.04) :
    extended (some (mkPt a)) (some (mkPt b)) (some (mkPt 0)) = false := by
  apply extended_eq_false
  rintro ⟨-, -, hd⟩
  rw [dist_mkPt, dist_mkPt, sub_zero, sub_zero, abs_of_nonneg ha,
    abs_of_nonneg hb] at hd
  linarith

lemma foldl_insert_apply (ys : List Landmark)
    (m : String → Option Landmark) (n : String) :
    ys.foldl insertStep m n = pyGetD (buildByName ys n) (m n) := by
  induction ys generalizing m with
  | nil => rfl
  | cons hd tl ih =>
    show tl.foldl insertStep (insertStep m hd) n = _
    rw [ih (insertStep m hd)]
    have h2 : buildByName (hd :: tl) n =
        pyGetD (buildByName tl n) (insertStep (fun _ => none) hd n) := by
      show tl.foldl insertStep (insertStep (fun _ => none) hd) n = _
      rw [ih (insertStep (fun _ => none) hd)]
    rw [h2]
    cases hF : buildByName tl n with
    | some l => rfl
    | none =>
      show insertStep m hd n = pyGetD (insertStep (fun _ => none) hd n) (m n)
      unfold insertStep
      cases hn : hd.name with
      | none => rfl
      | some n' =>
        by_cases he : n' = ""
        · simp only [if_pos he]; rfl
        · simp only [if_neg he]
          by_cases hnn : n = n'
          · simp only [if_pos hnn]; rfl
          · simp only [if_neg hnn]; rfl

lemma buildByName_eq_none {lms : List Landmark} {n : String}
    (h : ∀ lm ∈ lms, lm.name ≠ some n) : buildByName lms n = none := by
  induction lms with
  | nil => rfl
  | cons hd tl ih =>
    show tl.foldl insertStep (insertStep (fun _ => none) hd) n = none
    rw [foldl_insert_apply, ih (fun lm hm => h lm (List.mem_cons_of_mem hd hm))]
    unfold pyGetD insertStep
    cases hn : hd.name with
    | none => rfl
    | some n' =>
      have hne : ¬ n = n' := fun hc =>
        h hd (List.mem_cons_self hd tl) (by rw [hn, hc])
      by_cases he : n' = ""
      · simp only [if_pos he]
      · simp only [if_neg he, if_neg hne]

lemma buildByName_last {lms : List Landmark} {j : Nat} {lm : Landmark}
    {n : String} (hj : lms[j]? = some lm) (hname : lm.name = some n)
    (hne : n ≠ "")
    (hlast : ∀ k lm', j < k → lms[k]? = some lm' → lm'.name ≠ some n) :
    buildByName lms n = some lm := by
  induction lms generalizing j with
  | nil => simp at hj
  | cons hd tl ih =>
    cases j with
    | zero =>
      rw [List.getElem?_cons_zero] at hj
      injection hj with hj
      subst hj
      have htl : buildByName tl n = none := by
        apply buildByName_eq_none
        intro lm' hm
        obtain ⟨k, hk⟩ := List.mem_iff_getElem?.mp hm
        exact hlast (k + 1) lm' (Nat.succ_pos k)
          (by rw [List.getElem?_cons_succ]; exact hk)
      show tl.foldl insertStep (insertStep (fun _ => none) hd) n = some hd
      rw [foldl_insert_apply, htl]
      unfold pyGetD insertStep
      rw [hname]
      simp [hne]
    | succ j' =>
      rw [List.getElem?_cons_succ] at hj
      have hlast' : ∀ k lm', j' < k → tl[k]? = some lm' →
          lm'.name ≠ some n := fun k lm' hk hget =>
        hlast (k + 1) lm' (by omega) (by rw [List.getElem?_cons_succ]; exact hget)
      have htl := ih hj hlast'
      show tl.foldl insertStep (insertStep (fun _ => none) hd) n = some lm
      rw [foldl_insert_apply, htl]
      rfl

lemma recordsOf_map (lms : List Landmark) :
    recordsOf (lms.map Entry.record) = some lms := by
  induction lms with
  | nil => rfl
  | cons hd tl ih => simp [recordsOf, ih]

lemma recordsOf_isSome {xs : List Entry}
    (h : ∀ e ∈ xs, ∃ lm, e = Entry.record lm) :
    ∃ lms, recordsOf xs = some lms := by
  induction xs with
  | nil => exact ⟨[], rfl⟩
  | cons hd tl ih =>
    obtain ⟨lm, rfl⟩ := h hd (List.mem_cons_self hd tl)
    obtain ⟨lms, hlms⟩ := ih (fun e he => h e (List.mem_cons_of_mem _ he))
    exact ⟨lm :: lms, by simp [recordsOf, hlms]⟩

lemma classify_sign_records (lms : List Landmark) (hlen : 21 ≤ lms.length) :
    classify_sign (PyInput.list (lms.map Entry.record)) =
      Except.ok (classify_core lms) := by
  simp only [classify_sign]
  rw [List.length_map, if_neg (by omega), recordsOf_map]

lemma classify_core_rules {lms : List Landmark}
    (hw : objTruthy (wristOf lms) = true) :
    classify_core lms = rulesOf lms := by
  unfold classify_core
  rw [hw]
  simp

lemma classify_core_noWrist {lms : List Landmark}
    (hw : objTruthy (wristOf lms) = false) :
    classify_core lms = ("Unknown", 0.1, Debug.err ("NO_WRIST")) := by
  unfold classify_core
  rw [hw]
  simp

lemma rulesOf_rule1 {lms : List Landmark} (h1 : rule1 (fingersOf lms)) :
    rulesOf lms = ("Pinky", 0.88, Debug.rsn (fingersOf lms) ("TOILET")) := by
  unfold rulesOf
  rw [if_pos h1]

lemma rulesOf_rule2 {lms : List Landmark} (h1 : ¬ rule1 (fingersOf lms))
    (h2 : rule2 (fingersOf lms)) :
    rulesOf lms = ("Middle", 0.88, Debug.rsn (fingersOf lms) ("ANGRY")) := by
  unfold rulesOf
  rw [if_neg h1, if_pos h2]

lemma rulesOf_rule3 {lms : List Landmark} (h1 : ¬ rule1 (fingersOf lms))
    (h2 : ¬ rule2 (fingersOf lms)) (h3 : rule3 (fingersOf lms)) :
    rulesOf lms =
      ("Ring Pinky Middle", 0.90, Debug.rsn (fingersOf lms) ("AWESOME")) := by
  unfold rulesOf
  rw [if_neg h1, if_neg h2, if_pos h3]

lemma rulesOf_pinch {lms : List Landmark} (h1 : ¬ rule1 (fingersOf lms))
    (h2 : ¬ rule2 (fingersOf lms)) (h3 : ¬ rule3 (fingersOf lms))
    (h4 : pinchRule lms) :
    rulesOf lms =
      ("Pinch", 0.86, Debug.withPinch (fingersOf lms) (pinchOf lms)) := by
  unfold rulesOf
  rw [if_neg h1, if_neg h2, if_neg h3, if_pos h4]

lemma rulesOf_thumbsUp {lms : List Landmark} (h1 : ¬ rule1 (fingersOf lms))
    (h2 : ¬ rule2 (fingersOf lms)) (h3 : ¬ rule3 (fingersOf lms))
    (h4 : ¬ pinchRule lms) (h5 : ¬ rule5 (fingersOf lms))
    (h6 : ¬ rule6 (fingersOf lms)) (h7 : ¬ rule7 (fingersOf lms))
    (h8 : rule8 (fingersOf lms)) :
    rulesOf lms =
      ("Thumbs Up", 0.90, Debug.rsn (fingersOf lms) ("THUMBS_UP")) := by
  unfold rulesOf
  rw [if_neg h1, if_neg h2, if_neg h3, if_neg h4, if_neg h5, if_neg h6,
    if_neg h7, if_pos h8]

lemma rule2_not_rule1 {f : FingerState} (h : rule2 f) : ¬ rule1 f := by
  rintro ⟨-, -, -, hm, -⟩
  rw [h.1] at hm
  exact Bool.noConfusion hm

lemma rule3_not_rule1 {f : FingerState} (h : rule3 f) : ¬ rule1 f := by
  rintro ⟨-, -, -, -, hr⟩
  rw [h.1] at hr
  exact Bool.noConfusion hr

lemma rule3_not_rule2 {f : FingerState} (h : rule3 f) : ¬ rule2 f := by
  rintro ⟨-, -, -, -, hp⟩
  rw [h.2.2.1] at hp
  exact Bool.noConfusion hp

lemma rulesOf_shape (lms : List Landmark) :
    (rulesOf lms).2.2.fingers = some (fingersOf lms) ∧
    (rulesOf lms).2.2.error = none ∧
    (((rulesOf lms).1 = "Pinch" ∧ (rulesOf lms).2.2.reason = none ∧
        (rulesOf lms).2.2.pinch_distance = some (pinchOf lms)) ∨
     ((rulesOf lms).1 ≠ "Pinch" ∧ (rulesOf lms).2.2.reason.isSome = true ∧
        (rulesOf lms).2.2.pinch_distance = none)) := by
  unfold rulesOf
  by_cases h1 : rule1 (fingersOf lms)
  · rw [if_pos h1]; exact ⟨rfl, rfl, Or.inr ⟨by show ("Pinky" : String) ≠ "Pinch"; decide, rfl, rfl⟩⟩
  rw [if_neg h1]
  by_cases h2 : rule2 (fingersOf lms)
  · rw [if_pos h2]; exact ⟨rfl, rfl, Or.inr ⟨by show ("Middle" : String) ≠ "Pinch"; decide, rfl, rfl⟩⟩
  rw [if_neg h2]
  by_cases h3 : rule3 (fingersOf lms)
  · rw [if_pos h3]; exact ⟨rfl, rfl, Or.inr ⟨by show ("Ring Pinky Middle" : String) ≠ "Pinch"; decide, rfl, rfl⟩⟩
  rw [if_neg h3]
  by_cases h4 : pinchRule lms
  · rw [if_pos h4]; exact ⟨rfl, rfl, Or.inl ⟨rfl, rfl, rfl⟩⟩
  rw [if_neg h4]
  by_cases h5 : rule5 (fingersOf lms)
  · rw [if_pos h5]; exact ⟨rfl, rfl, Or.inr ⟨by show ("Point" : String) ≠ "Pinch"; decide, rfl, rfl⟩⟩
  rw [if_neg h5]
  by_cases h6 : rule6 (fingersOf lms)
  · rw [if_pos h6]; exact ⟨rfl, rfl, Or.inr ⟨by show ("Peace" : String) ≠ "Pinch"; decide, rfl, rfl⟩⟩
  rw [if_neg h6]
  by_cases h7 : rule7 (fingersOf lms)
  · rw [if_pos h7]; exact ⟨rfl, rfl, Or.inr ⟨by show ("Rock" : String) ≠ "Pinch"; decide, rfl, rfl⟩⟩
  rw [if_neg h7]
  by_cases h8 : rule8 (fingersOf lms)
  · rw [if_pos h8]; exact ⟨rfl, rfl, Or.inr ⟨by show ("Thumbs Up" : String) ≠ "Pinch"; decide, rfl, rfl⟩⟩
  rw [if_neg h8]
  by_cases h9 : countExt (fingersOf lms) = 0
  · rw [if_pos h9]; exact ⟨rfl, rfl, Or.inr ⟨by show ("Fist" : String) ≠ "Pinch"; decide, rfl, rfl⟩⟩
  rw [if_neg h9]
  by_cases h10 : countExt (fingersOf lms) = 5
  · rw [if_pos h10]; exact ⟨rfl, rfl, Or.inr ⟨by show ("Open Hand" : String) ≠ "Pinch"; decide, rfl, rfl⟩⟩
  rw [if_neg h10]
  by_cases h11 : countExt (fingersOf lms) = 4
  · rw [if_pos h11]; exact ⟨rfl, rfl, Or.inr ⟨by show ("Four Fingers" : String) ≠ "Pinch"; decide, rfl, rfl⟩⟩
  rw [if_neg h11]
  by_cases h12 : countExt (fingersOf lms) = 3
  · rw [if_pos h12]; exact ⟨rfl, rfl, Or.inr ⟨by show ("Three Fingers" : String) ≠ "Pinch"; decide, rfl, rfl⟩⟩
  rw [if_neg h12]
  exact ⟨rfl, rfl, Or.inr ⟨by show ("Unknown" : String) ≠ "Pinch"; decide, rfl, rfl⟩⟩

/- ## Claim theorems -/

/-- C1 (amended): for every input that is a non-list, a list of fewer than 21
elements, or a list whose elements are all landmark records, `classify_sign`
returns a `(label, confidence, debug)` triple and never raises; and whenever
the input is not a list of length at least 21, it returns the low-confidence
`Unknown`/0.2 result with the error code `NOT_ENOUGH_LANDMARKS` in the debug
mapping.  (A list of length at least 21 containing a non-record element
raises AttributeError instead, see the counterexample.) -/
theorem C1_no_raise_wellformed (input : PyInput) (h : wellFormedElems input) :
    (∃ r : Result, classify_sign input = Except.ok r) ∧
    ((∀ xs, input = PyInput.list xs → xs.length < 21) →
      classify_sign input =
        Except.ok ("Unknown", 0.2, Debug.err ("NOT_ENOUGH_LANDMARKS"))) := by
  cases input with
  | nonList xs => exact ⟨⟨_, rfl⟩, fun _ => rfl⟩
  | list xs =>
    by_cases hlen : xs.length < 21
    · constructor
      · refine ⟨("Unknown", 0.2, Debug.err ("NOT_ENOUGH_LANDMARKS")), ?_⟩
        simp only [classify_sign]
        rw [if_pos hlen]
      · intro _
        simp only [classify_sign]
        rw [if_pos hlen]
    · rcases h with h | h
      · exact absurd h hlen
      · obtain ⟨lms, hlms⟩ := recordsOf_isSome h
        refine ⟨⟨classify_core lms, ?_⟩, fun hmal => absurd (hmal xs rfl) hlen⟩
        simp only [classify_sign]
        rw [if_neg hlen, hlms]

/-- C1 witness: the empty list is malformed and yields the early-exit
result. -/
theorem C1_witness :
    classify_sign (PyInput.list []) =
      Except.ok ("Unknown", 0.2, Debug.err ("NOT_ENOUGH_LANDMARKS")) :=
  (C1_no_raise_wellformed (PyInput.list []) (Or.inl (by decide))).2
    (fun xs hxs => by injection hxs with h; subst h; decide)

/-- C1 counterexample: a list of 21 non-record elements makes `classify_sign`
raise AttributeError in the `by_name` loop, so the claim that classify never
raises (for lists whose elements are not landmark records) is false. -/
theorem C1_counterexample :
    classify_sign (PyInput.list (List.replicate 21 Entry.nonRecord)) =
      Except.error PyErr.attributeError := rfl

/-- C2 (amended): `classify_sign` returns the early-exit result (label
"Unknown", confidence 0.2, debug error `NOT_ENOUGH_LANDMARKS`) exactly when
the input is not a Python list of length at least 21 — the `isinstance`
check admits lists only, not arbitrary sequence types. -/
theorem C2_list_length_iff (input : PyInput) :
    classify_sign input =
        Except.ok ("Unknown", 0.2, Debug.err ("NOT_ENOUGH_LANDMARKS")) ↔
      ∀ xs, input = PyInput.list xs → xs.length < 21 := by
  cases input with
  | nonList xs =>
    constructor
    · intro _ ys hys
      cases hys
    · intro _
      rfl
  | list xs =>
    by_cases hlen : xs.length < 21
    · constructor
      · intro _ ys hys
        injection hys with h
        subst h
        exact hlen
      · intro _
        simp only [classify_sign]
        rw [if_pos hlen]
    · constructor
      · intro hres
        exfalso
        simp only [classify_sign] at hres
        rw [if_neg hlen] at hres
        cases hrec : recordsOf xs with
        | none =>
          rw [hrec] at hres
          exact Except.noConfusion hres
        | some lms =>
          rw [hrec] at hres
          have hcore : classify_core lms =
              ("Unknown", 0.2, Debug.err ("NOT_ENOUGH_LANDMARKS")) := by
            injection hres
          by_cases hw : objTruthy (wristOf lms) = false
          · rw [classify_core_noWrist hw] at hcore
            have h01 : (0.1 : ℝ) = 0.2 := congrArg (fun r : Result => r.2.1) hcore
            norm_num at h01
          · have hw' : objTruthy (wristOf lms) = true := by
              cases hq : objTruthy (wristOf lms)
              · exact absurd hq hw
              · rfl
            rw [classify_core_rules hw'] at hcore
            have hfin := (rulesOf_shape lms).1
            rw [hcore] at hfin
            exact Option.noConfusion hfin
      · intro hmal
        exact absurd (hmal xs rfl) hlen

/-- C2 counterexample: a non-list sequence (e.g. a tuple) of 21 landmark
records still gets the early-exit result, although the claim says every
sequence of length at least 21 proceeds past the check. -/
theorem C2_counterexample :
    seqLen (PyInput.nonList (List.replicate 21 (Entry.record (mkPt 0)))) = 21 ∧
    classify_sign (PyInput.nonList (List.replicate 21 (Entry.record (mkPt 0)))) =
      Except.ok ("Unknown", 0.2, Debug.err ("NOT_ENOUGH_LANDMARKS")) :=
  ⟨rfl, rfl⟩

/-- C7: a finger counts as extended iff both its tip and pip are truthy and
the tip-to-wrist distance strictly exceeds the pip-to-wrist distance plus the
0.04 margin; at exactly 0.04 difference the finger is NOT extended. -/
theorem C7_extension_margin (tip pip wrist : Obj) :
    (extended tip pip wrist = true ↔
      objTruthy tip = true ∧ objTruthy pip = true ∧
        dist tip wrist > dist pip wrist + 0.04) ∧
    (dist tip wrist = dist pip wrist + 0.04 →
      extended tip pip wrist = false) := by
  refine ⟨extended_true_iff tip pip wrist, fun heq => extended_eq_false ?_⟩
  rintro ⟨-, -, hd⟩
  rw [heq] at hd
  exact lt_irrefl _ hd

/-- C7 witness: a tip at distance exactly pip-distance + 0.04 from the wrist
is not extended. -/
theorem C7_witness :
    dist (some (mkPt 0.14)) (some (mkPt 0)) =
      dist (some (mkPt 0.1)) (some (mkPt 0)) + 0.04 ∧
    extended (some (mkPt 0.14)) (some (mkPt 0.1)) (some (mkPt 0)) = false := by
  have heq : dist (some (mkPt 0.14)) (some (mkPt 0)) =
      dist (some (mkPt 0.1)) (some (mkPt 0)) + 0.04 := by
    rw [dist_mkPt, dist_mkPt, sub_zero, sub_zero,
      abs_of_nonneg (by norm_num : (0 : ℝ) ≤ 0.14),
      abs_of_nonneg (by norm_num : (0 : ℝ) ≤ 0.1)]
    norm_num
  exact ⟨heq, (C7_extension_margin (some (mkPt 0.14)) (some (mkPt 0.1))
    (some (mkPt 0))).2 heq⟩

/-- C8: the planar distance helper is symmetric in its two arguments,
absent and falsy ones included. -/
theorem C8_dist_symm (a b : Obj) : dist a b = dist b a := by
  unfold dist
  by_cases ha : objTruthy a = false
  · rw [if_pos (Or.inl ha), if_pos (Or.inr ha)]
  · by_cases hb : objTruthy b = false
    · rw [if_pos (Or.inr hb), if_pos (Or.inl hb)]
    · rw [if_neg (by tauto), if_neg (by tauto)]
      congr 1
      ring

/-- C9: name-based role resolution is position-independent and last-wins:
if the entry at position j carries the (nonempty) role name n and no later
entry carries that name, then `g` resolves the role to that entry whatever
fallback index is asked for and wherever j is. -/
theorem C9_last_wins (lms : List Landmark) (n : String) (i j : Nat)
    (lm : Landmark) (hj : lms[j]? = some lm) (hname : lm.name = some n)
    (hne : n ≠ "")
    (hlast : ∀ k lm', j < k → lms[k]? = some lm' → lm'.name ≠ some n) :
    g lms n i = some lm := by
  unfold g
  rw [buildByName_last hj hname hne hlast]
  rfl

/-- C9 witness: with "wrist" entries at positions 1 and 2, the role resolves
to the later one even though the fallback index is 0. -/
theorem C9_witness : g lmsNames ("wrist") 0 = some (mkNamed ("wrist") 0.7) := by
  apply C9_last_wins lmsNames ("wrist") 0 2 (mkNamed ("wrist") 0.7) rfl rfl
    (by decide)
  intro k lm' hk hget
  have hnone : lmsNames[k]? = none := by
    apply List.getElem?_eq_none
    show lmsNames.length ≤ k
    rw [show lmsNames.length = 3 from rfl]
    omega
  rw [hnone] at hget
  exact Option.noConfusion hget

/-- C3: on valid input with both pinch endpoints resolved and pinch distance
below 0.06, the pinch rule beats every later rule (5-13), while a matching
finger pattern of rules 1-3 beats the pinch rule. -/
theorem C3_pinch_priority (lms : List Landmark) (hlen : 21 ≤ lms.length)
    (hw : objTruthy (wristOf lms) = true)
    (ht : objTruthy (thumbTipOf lms) = true)
    (hi : objTruthy (indexTipOf lms) = true)
    (hp : pinchOf lms < 0.06) :
    (¬ rule1 (fingersOf lms) → ¬ rule2 (fingersOf lms) →
      ¬ rule3 (fingersOf lms) →
      classify_sign (PyInput.list (lms.map Entry.record)) =
        Except.ok ("Pinch", 0.86,
          Debug.withPinch (fingersOf lms) (pinchOf lms))) ∧
    (rule1 (fingersOf lms) →
      classify_sign (PyInput.list (lms.map Entry.record)) =
        Except.ok ("Pinky", 0.88, Debug.rsn (fingersOf lms) ("TOILET"))) ∧
    (rule2 (fingersOf lms) →
      classify_sign (PyInput.list (lms.map Entry.record)) =
        Except.ok ("Middle", 0.88, Debug.rsn (fingersOf lms) ("ANGRY"))) ∧
    (rule3 (fingersOf lms) →
      classify_sign (PyInput.list (lms.map Entry.record)) =
        Except.ok ("Ring Pinky Middle", 0.90,
          Debug.rsn (fingersOf lms) ("AWESOME"))) := by
  refine ⟨fun h1 h2 h3 => ?_, fun h1 => ?_, fun h2 => ?_, fun h3 => ?_⟩
  · rw [classify_sign_records lms hlen, classify_core_rules hw,
      rulesOf_pinch h1 h2 h3 ⟨ht, hi, hp⟩]
  · rw [classify_sign_records lms hlen, classify_core_rules hw,
      rulesOf_rule1 h1]
  · rw [classify_sign_records lms hlen, classify_core_rules hw,
      rulesOf_rule2 (rule2_not_rule1 h2) h2]
  · rw [classify_sign_records lms hlen, classify_core_rules hw,
      rulesOf_rule3 (rule3_not_rule1 h3) (rule3_not_rule2 h3) h3]

/-- C3 witness: a hand whose finger pattern matches "Point" but whose thumb
tip and index tip are 0.02 apart classifies as "Pinch". -/
theorem C3_witness :
    classify_sign (PyInput.list (lmsC3w.map Entry.record)) =
      Except.ok ("Pinch", 0.86,
        Debug.withPinch (fingersOf lmsC3w) (pinchOf lmsC3w)) := by
  have hT : thumbExt lmsC3w = false := by
    show extended (some (mkPt 0.52)) (some (mkPt 0.5)) (some (mkPt 0)) = false
    exact extended_pt0_false (by norm_num) (by norm_num) (by norm_num)
  have hI : indexExt lmsC3w = true := by
    show extended (some (mkPt 0.5)) (some (mkPt 0.2)) (some (mkPt 0)) = true
    exact extended_pt0_true (by norm_num) (by norm_num) (by norm_num)
  have hM : middleExt lmsC3w = false := by
    show extended (some (mkPt 0.3)) (some (mkPt 0.3)) (some (mkPt 0)) = false
    exact extended_pt0_false (by norm_num) (by norm_num) (by norm_num)
  have hR : ringExt lmsC3w = false := by
    show extended (some (mkPt 0.3)) (some (mkPt 0.3)) (some (mkPt 0)) = false
    exact extended_pt0_false (by norm_num) (by norm_num) (by norm_num)
  have hP : pinkyExt lmsC3w = false := by
    show extended (some (mkPt 0.3)) (some (mkPt 0.3)) (some (mkPt 0)) = false
    exact extended_pt0_false (by norm_num) (by norm_num) (by norm_num)
  have hf : fingersOf lmsC3w = ⟨false, true, false, false, false⟩ := by
    unfold fingersOf
    rw [hT, hI, hM, hR, hP]
  have hpin : pinchOf lmsC3w < 0.06 := by
    show dist (some (mkPt 0.52)) (some (mkPt 0.5)) < 0.06
    rw [dist_mkPt, abs_of_nonneg (by norm_num : (0 : ℝ) ≤ 0.52 - 0.5)]
    norm_num
  exact (C3_pinch_priority lmsC3w (by norm_num [lmsC3w, handList]) rfl rfl rfl
    hpin).1 (by rw [hf]; simp [rule1]) (by rw [hf]; simp [rule2])
    (by rw [hf]; simp [rule3])

/-- C4 (amended): on a 21-landmark input whose derived FingerState is thumb
extended and all other fingers retracted, and on which the pinch rule does
not fire (pinch endpoints unresolved or pinch distance at least 0.06),
classify returns "Thumbs Up", 0.90, reason THUMBS_UP, with exactly one
finger counted as extended.  (If the pinch rule fires it preempts Thumbs Up,
see the counterexample.) -/
theorem C4_thumbs_up (lms : List Landmark) (hlen : 21 ≤ lms.length)
    (hf : fingersOf lms = ⟨true, false, false, false, false⟩)
    (hnp : ¬ pinchRule lms) :
    classify_sign (PyInput.list (lms.map Entry.record)) =
      Except.ok ("Thumbs Up", 0.90, Debug.rsn (fingersOf lms) ("THUMBS_UP")) ∧
    countExt (fingersOf lms) = 1 := by
  have hT : extended (thumbTipOf lms) (thumbIpOf lms) (wristOf lms) = true :=
    congrArg FingerState.thumb hf
  have hw : objTruthy (wristOf lms) = true := wrist_truthy_of_extended hT
  refine ⟨?_, by rw [hf]; rfl⟩
  rw [classify_sign_records lms hlen, classify_core_rules hw,
    rulesOf_thumbsUp (by rw [hf]; simp [rule1]) (by rw [hf]; simp [rule2])
      (by rw [hf]; simp [rule3]) hnp (by rw [hf]; simp [rule5])
      (by rw [hf]; simp [rule6]) (by rw [hf]; simp [rule7])
      (by rw [hf]; exact ⟨rfl, rfl⟩)]

/-- C4 witness: thumb extended, all others retracted, thumb tip 0.3 away
from the index tip: Thumbs Up with one extended finger. -/
theorem C4_witness :
    classify_sign (PyInput.list (lmsC4w.map Entry.record)) =
      Except.ok ("Thumbs Up", 0.90,
        Debug.rsn (fingersOf lmsC4w) ("THUMBS_UP")) ∧
    countExt (fingersOf lmsC4w) = 1 := by
  have hT : thumbExt lmsC4w = true := by
    show extended (some (mkPt 0.5)) (some (mkPt 0.1)) (some (mkPt 0)) = true
    exact extended_pt0_true (by norm_num) (by norm_num) (by norm_num)
  have hI : indexExt lmsC4w = false := by
    show extended (some (mkPt 0.2)) (some (mkPt 0.2)) (some (mkPt 0)) = false
    exact extended_pt0_false (by norm_num) (by norm_num) (by norm_num)
  have hM : middleExt lmsC4w = false := by
    show extended (some (mkPt 0.3)) (some (mkPt 0.3)) (some (mkPt 0)) = false
    exact extended_pt0_false (by norm_num) (by norm_num) (by norm_num)
  have hR : ringExt lmsC4w = false := by
    show extended (some (mkPt 0.3)) (some (mkPt 0.3)) (some (mkPt 0)) = false
    exact extended_pt0_false (by norm_num) (by norm_num) (by norm_num)
  have hP : pinkyExt lmsC4w = false := by
    show extended (some (mkPt 0.3)) (some (mkPt 0.3)) (some (mkPt 0)) = false
    exact extended_pt0_false (by norm_num) (by norm_num) (by norm_num)
  have hf : fingersOf lmsC4w = ⟨true, false, false, false, false⟩ := by
    unfold fingersOf
    rw [hT, hI, hM, hR, hP]
  refine C4_thumbs_up lmsC4w (by norm_num [lmsC4w, handList]) hf ?_
  rintro ⟨-, -, hp⟩
  rw [show pinchOf lmsC4w = dist (some (mkPt 0.5)) (some (mkPt 0.2)) from rfl,
    dist_mkPt, abs_of_nonneg (by norm_num : (0 : ℝ) ≤ 0.5 - 0.2)] at hp
  norm_num at hp

/-- C4 counterexample: a hand whose FingerState is exactly thumb extended
and all others retracted, but whose thumb tip and index tip are 0.02 apart,
returns "Pinch", not "Thumbs Up" — the claim as stated is false. -/
theorem C4_counterexample :
    fingersOf lmsC4c = ⟨true, false, false, false, false⟩ ∧
    classify_sign (PyInput.list (lmsC4c.map Entry.record)) =
      Except.ok ("Pinch", 0.86,
        Debug.withPinch (fingersOf lmsC4c) (pinchOf lmsC4c)) := by
  have hT : thumbExt lmsC4c = true := by
    show extended (some (mkPt 0.5)) (some (mkPt 0.1)) (some (mkPt 0)) = true
    exact extended_pt0_true (by norm_num) (by norm_num) (by norm_num)
  have hI : indexExt lmsC4c = false := by
    show extended (some (mkPt 0.52)) (some (mkPt 0.52)) (some (mkPt 0)) = false
    exact extended_pt0_false (by norm_num) (by norm_num) (by norm_num)
  have hM : middleExt lmsC4c = false := by
    show extended (some (mkPt 0.3)) (some (mkPt 0.3)) (some (mkPt 0)) = false
    exact extended_pt0_false (by norm_num) (by norm_num) (by norm_num)
  have hR : ringExt lmsC4c = false := by
    show extended (some (mkPt 0.3)) (some (mkPt 0.3)) (some (mkPt 0)) = false
    exact extended_pt0_false (by norm_num) (by norm_num) (by norm_num)
  have hP : pinkyExt lmsC4c = false := by
    show extended (some (mkPt 0.3)) (some (mkPt 0.3)) (some (mkPt 0)) = false
    exact extended_pt0_false (by norm_num) (by norm_num) (by norm_num)
  have hf : fingersOf lmsC4c = ⟨true, false, false, false, false⟩ := by
    unfold fingersOf
    rw [hT, hI, hM, hR, hP]
  have hpin : pinchOf lmsC4c < 0.06 := by
    show dist (some (mkPt 0.5)) (some (mkPt 0.52)) < 0.06
    rw [dist_mkPt, abs_of_nonpos (by norm_num : (0.5 : ℝ) - 0.52 ≤ 0)]
    norm_num
  have hw : objTruthy (wristOf lmsC4c) = true := rfl
  have ht : objTruthy (thumbTipOf lmsC4c) = true := rfl
  have hi : objTruthy (indexTipOf lmsC4c) = true := rfl
  refine ⟨hf, ?_⟩
  rw [classify_sign_records lmsC4c (by norm_num [lmsC4c, handList]),
    classify_core_rules hw,
    rulesOf_pinch (by rw [hf]; simp [rule1]) (by rw [hf]; simp [rule2])
      (by rw [hf]; simp [rule3]) ⟨ht, hi, hpin⟩]

/-- C5 (amended): past both early-exit checks, the debug mapping always
carries the five finger booleans and never an error code; every rule path
except the pinch path carries a reason code and no pinch distance, while the
pinch path carries the numeric pinch distance and no reason code. -/
theorem C5_debug_fields (lms : List Landmark) (hlen : 21 ≤ lms.length)
    (hw : objTruthy (wristOf lms) = true) :
    classify_sign (PyInput.list (lms.map Entry.record)) =
      Except.ok (rulesOf lms) ∧
    (rulesOf lms).2.2.fingers = some (fingersOf lms) ∧
    (rulesOf lms).2.2.error = none ∧
    (((rulesOf lms).1 = "Pinch" ∧ (rulesOf lms).2.2.reason = none ∧
        (rulesOf lms).2.2.pinch_distance = some (pinchOf lms)) ∨
     ((rulesOf lms).1 ≠ "Pinch" ∧ (rulesOf lms).2.2.reason.isSome = true ∧
        (rulesOf lms).2.2.pinch_distance = none)) := by
  refine ⟨?_, rulesOf_shape lms⟩
  rw [classify_sign_records lms hlen, classify_core_rules hw]

/-- C5 witness: a concrete 21-landmark hand passing both checks. -/
theorem C5_witness :
    classify_sign (PyInput.list (lmsFist.map Entry.record)) =
      Except.ok (rulesOf lmsFist) ∧
    (rulesOf lmsFist).2.2.fingers = some (fingersOf lmsFist) ∧
    (rulesOf lmsFist).2.2.error = none ∧
    (((rulesOf lmsFist).1 = "Pinch" ∧ (rulesOf lmsFist).2.2.reason = none ∧
        (rulesOf lmsFist).2.2.pinch_distance = some (pinchOf lmsFist)) ∨
     ((rulesOf lmsFist).1 ≠ "Pinch" ∧
        (rulesOf lmsFist).2.2.reason.isSome = true ∧
        (rulesOf lmsFist).2.2.pinch_distance = none)) :=
  C5_debug_fields lmsFist (by norm_num [lmsFist, handList]) rfl

/-- C5 counterexample: the pinch path's debug carries the finger booleans
and the pinch distance but neither a reason nor an error code, so the claim
that every rule-table path (including pinch) carries a reason code is
false. -/
theorem C5_counterexample :
    classify_sign (PyInput.list (lmsFist.map Entry.record)) =
      Except.ok ("Pinch", 0.86,
        (⟨some ⟨false, false, false, false, false⟩, none, none, some 0⟩ :
          Debug)) := by
  have hT : thumbExt lmsFist = false := by
    show extended (some (mkPt 0.3)) (some (mkPt 0.3)) (some (mkPt 0)) = false
    exact extended_pt0_false (by norm_num) (by norm_num) (by norm_num)
  have hI : indexExt lmsFist = false := by
    show extended (some (mkPt 0.3)) (some (mkPt 0.3)) (some (mkPt 0)) = false
    exact extended_pt0_false (by norm_num) (by norm_num) (by norm_num)
  have hM : middleExt lmsFist = false := by
    show extended (some (mkPt 0.3)) (some (mkPt 0.3)) (some (mkPt 0)) = false
    exact extended_pt0_false (by norm_num) (by norm_num) (by norm_num)
  have hR : ringExt lmsFist = false := by
    show extended (some (mkPt 0.3)) (some (mkPt 0.3)) (some (mkPt 0)) = false
    exact extended_pt0_false (by norm_num) (by norm_num) (by norm_num)
  have hP : pinkyExt lmsFist = false := by
    show extended (some (mkPt 0.3)) (some (mkPt 0.3)) (some (mkPt 0)) = false
    exact extended_pt0_false (by norm_num) (by norm_num) (by norm_num)
  have hf : fingersOf lmsFist = ⟨false, false, false, false, false⟩ := by
    unfold fingersOf
    rw [hT, hI, hM, hR, hP]
  have hpin : pinchOf lmsFist = 0 := by
    show dist (some (mkPt 0.3)) (some (mkPt 0.3)) = 0
    rw [dist_mkPt, sub_self, abs_zero]
  have hw : objTruthy (wristOf lmsFist) = true := rfl
  have ht : objTruthy (thumbTipOf lmsFist) = true := rfl
  have hi : objTruthy (indexTipOf lmsFist) = true := rfl
  rw [classify_sign_records lmsFist (by norm_num [lmsFist, handList]),
    classify_core_rules hw,
    rulesOf_pinch (by rw [hf]; simp [rule1]) (by rw [hf]; simp [rule2])
      (by rw [hf]; simp [rule3]) ⟨ht, hi, by rw [hpin]; norm_num⟩,
    hf, hpin]
  rfl

/-- C6: a 21-element list of landmark records with no entry named "wrist"
and a falsy (empty) record at index 0 yields the `NO_WRIST` result with
confidence 0.1; and the length check runs first: any shorter list yields
`NOT_ENOUGH_LANDMARKS` instead. -/
theorem C6_no_wrist (lms : List Landmark) (hlen : lms.length = 21)
    (hname : ∀ lm ∈ lms, lm.name ≠ some ("wrist"))
    (lm₀ : Landmark) (h0 : lms[0]? = some lm₀)
    (hfalsy : lmTruthy lm₀ = false) :
    classify_sign (PyInput.list (lms.map Entry.record)) =
      Except.ok ("Unknown", 0.1, Debug.err ("NO_WRIST")) ∧
    ∀ ys : List Entry, ys.length < 21 →
      classify_sign (PyInput.list ys) =
        Except.ok ("Unknown", 0.2, Debug.err ("NOT_ENOUGH_LANDMARKS")) := by
  constructor
  · have hwn : buildByName lms ("wrist") = none := buildByName_eq_none hname
    have hwr : wristOf lms = some lm₀ := by
      unfold wristOf g
      rw [hwn]
      show (if 0 < lms.length then lms[0]? else none) = some lm₀
      rw [if_pos (by omega), h0]
    have hw : objTruthy (wristOf lms) = false := by
      rw [hwr]
      exact hfalsy
    rw [classify_sign_records lms (by omega), classify_core_noWrist hw]
  · intro ys hys
    simp only [classify_sign]
    rw [if_pos hys]

/-- C6 witness: an empty record at index 0 with 20 unnamed points behind
it gives NO_WRIST; the empty list gives NOT_ENOUGH_LANDMARKS. -/
theorem C6_witness :
    classify_sign (PyInput.list (lmsNoWrist.map Entry.record)) =
      Except.ok ("Unknown", 0.1, Debug.err ("NO_WRIST")) ∧
    classify_sign (PyInput.list []) =
      Except.ok ("Unknown", 0.2, Debug.err ("NOT_ENOUGH_LANDMARKS")) := by
  have hn : ∀ lm ∈ lmsNoWrist, lm.name ≠ some ("wrist") := by
    intro lm hm
    rcases List.mem_cons.mp hm with rfl | hm'
    · intro hc
      exact Option.noConfusion hc
    · have he : lm = mkPt 0.3 := List.eq_of_mem_replicate hm'
      subst he
      intro hc
      exact Option.noConfusion hc
  have h := C6_no_wrist lmsNoWrist rfl hn lmEmpty rfl rfl
  exact ⟨h.1, h.2 [] (by decide)⟩

/-- C10: a present-but-falsy landmark (e.g. an empty record) behaves like an
absent one everywhere: `dist` with it returns 0 (and agrees with `dist` on
`none`), a finger whose tip or pip is falsy is not extended, and a falsy
resolved wrist triggers the NO_WRIST early exit. -/
theorem C10_falsy_is_absent (lm : Landmark) (hfalsy : lmTruthy lm = false) :
    (∀ b : Obj, dist (some lm) b = 0 ∧ dist b (some lm) = 0 ∧
      dist (some lm) b = dist none b ∧ dist b (some lm) = dist b none) ∧
    (∀ pip wrist : Obj, extended (some lm) pip wrist = false) ∧
    (∀ tip wrist : Obj, extended tip (some lm) wrist = false) ∧
    (∀ lms : List Landmark, 21 ≤ lms.length → wristOf lms = some lm →
      classify_sign (PyInput.list (lms.map Entry.record)) =
        Except.ok ("Unknown", 0.1, Debug.err ("NO_WRIST"))) := by
  have hobj : objTruthy (some lm) = false := hfalsy
  refine ⟨fun b => ⟨dist_falsy_left b hobj, dist_falsy_right b hobj, ?_, ?_⟩,
    fun pip wrist => extended_eq_false ?_,
    fun tip wrist => extended_eq_false ?_,
    fun lms hlen hwr => ?_⟩
  · rw [dist_falsy_left b hobj, dist_falsy_left (a := none) b rfl]
  · rw [dist_falsy_right b hobj, dist_falsy_right (b := none) b rfl]
  · rintro ⟨ht, -, -⟩
    rw [hobj] at ht
    exact Bool.noConfusion ht
  · rintro ⟨-, hp, -⟩
    rw [hobj] at hp
    exact Bool.noConfusion hp
  · have hw : objTruthy (wristOf lms) = false := by
      rw [hwr]
      exact hobj
    rw [classify_sign_records lms hlen, classify_core_noWrist hw]

/-- C10 witness: the empty record, paired with a real point and with the
no-wrist hand. -/
theorem C10_witness :
    dist (some lmEmpty) (some (mkPt 1)) = 0 ∧
    dist (some (mkPt 1)) (some lmEmpty) = 0 ∧
    extended (some lmEmpty) (some (mkPt 1)) (some (mkPt 0)) = false ∧
    extended (some (mkPt 1)) (some lmEmpty) (some (mkPt 0)) = false ∧
    classify_sign (PyInput.list (lmsNoWrist.map Entry.record)) =
      Except.ok ("Unknown", 0.1, Debug.err ("NO_WRIST")) := by
  have h := C10_falsy_is_absent lmEmpty rfl
  exact ⟨(h.1 (some (mkPt 1))).1, (h.1 (some (mkPt 1))).2.1,
    h.2.1 (some (mkPt 1)) (some (mkPt 0)),
    h.2.2.1 (some (mkPt 1)) (some (mkPt 0)),
    h.2.2.2 lmsNoWrist (by norm_num [lmsNoWrist]) rfl⟩

end SignSense
